import Mathlib

/-!
Shallow embedding of `mesh2img.py` (phistrom/mesh2img), covering the batch
job templating and path-resolution model: JobTemplate construction, the
command-line dimension fix-up, output-path template resolution, the
directory planner, the batch start checks, and mesh scaling.  Python
machine behaviour is modelled explicitly: `int()` becomes an
`Option Int` parser, exceptions become `Except PyError`, floats become
rationals, and the host 3D engine (Blender) side effects become an
explicit effect trace.
-/

set_option autoImplicit false

/-- Python exceptions raised by the script: ValueError (bad int literal,
unexpected image format, empty batch inputs), TypeError (int applied to a
list), KeyError (unknown dict key or format placeholder). -/
inductive PyError where
  | valueError (msg : String)
  | typeError (msg : String)
  | keyError (key : String)
deriving DecidableEq, Repr

/-- Accumulator loop for parsing a run of decimal digits, mirroring what
Python `int()` accepts on an unsigned digit string; any non-digit
character makes the parse fail. -/
def digitsToNatAux : Nat → List Char → Option Nat
  | acc, [] => some acc
  | acc, c :: cs =>
    if c.isDigit then digitsToNatAux (acc * 10 + (c.toNat - 48)) cs else none

/-- Model of Python `int(s)` on a string: an optional sign followed by a
nonempty run of decimal digits; anything else raises ValueError (here:
`none`). -/
def pyInt (s : String) : Option Int :=
  match s.data with
  | [] => none
  | '-' :: cs =>
    if cs = [] then none else (digitsToNatAux 0 cs).map (fun n => -(n : Int))
  | '+' :: cs =>
    if cs = [] then none else (digitsToNatAux 0 cs).map (fun n => (n : Int))
  | cs => (digitsToNatAux 0 cs).map (fun n => (n : Int))

/-- Model of Python `int(c)` on a single character (the case produced by
unpacking a two-character string): a decimal digit parses to its value,
everything else raises ValueError. -/
def pyIntChar (c : Char) : Option Int :=
  if c.isDigit then some ((c.toNat : Int) - 48) else none

/-- Lift an optional int to the Except monad, raising the ValueError that
Python `int()` raises on a bad literal. -/
def toIntE (o : Option Int) : Except PyError Int :=
  match o with
  | some v => Except.ok v
  | none => Except.error (PyError.valueError "invalid literal for int")

/-- Model of Python `str.rfind` for a single character: the index of the
last occurrence, or `-1` when the character does not occur. -/
def rfindAux (c : Char) : List Char → Nat → Int → Int
  | [], _, acc => acc
  | x :: rest, i, acc => rfindAux c rest (i + 1) (if x = c then (i : Int) else acc)

/-- Last index of character `c` in `s`, `-1` if absent (Python `rfind`). -/
def rfind (s : String) (c : Char) : Int :=
  rfindAux c s.data 0 (-1)

/-- Model of `posixpath.splitext`: split at the last dot that lies after
the last slash, provided the final path component does not consist solely
of leading dots. -/
def splitext (p : String) : String × String :=
  let cs := p.data
  let sepIndex := rfind p '/'
  let dotIndex := rfind p '.'
  if sepIndex < dotIndex then
    let stem := (cs.take dotIndex.toNat).drop (sepIndex + 1).toNat
    if stem.any (fun ch => ch ≠ '.') then
      (String.mk (cs.take dotIndex.toNat), String.mk (cs.drop dotIndex.toNat))
    else (p, "")
  else (p, "")

/-- Model of `posixpath.basename`: everything after the last slash. -/
def basenameOf (p : String) : String :=
  String.mk (p.data.drop (rfind p '/' + 1).toNat)

/-- ASCII lowercasing of one character, as Python `str.lower` acts on the
ASCII range (the only characters appearing in the recognized extensions
and formats). -/
def charLower (c : Char) : Char :=
  if 65 ≤ c.toNat ∧ c.toNat ≤ 90 then Char.ofNat (c.toNat + 32) else c

/-- Model of Python `str.lower` on ASCII strings. -/
def lowerStr (s : String) : String :=
  String.mk (s.data.map charLower)

/-- Split a character list at commas, keeping empty pieces, like Python
`str.split` with a comma separator. -/
def splitCommaAux : List Char → List Char → List String
  | [], acc => [String.mk acc.reverse]
  | c :: cs, acc =>
    if c = ',' then String.mk acc.reverse :: splitCommaAux cs []
    else splitCommaAux cs (c :: acc)

/-- Model of Python `s.split(",")`. -/
def splitComma (s : String) : List String :=
  splitCommaAux s.data []

/-- True when the string begins with a slash (an absolute POSIX path). -/
def headIsSlash (s : String) : Bool :=
  match s.data with
  | '/' :: _ => true
  | _ => false

/-- True when the string ends with a slash. -/
def lastIsSlash (s : String) : Bool :=
  s.data.getLast? = some '/'

/-- Model of `posixpath.join` on two components: an absolute second
component wins; otherwise join with a slash unless one is already there. -/
def joinPath (a b : String) : String :=
  if headIsSlash b then b
  else if a = "" ∨ lastIsSlash a then a ++ b
  else a ++ "/" ++ b

/-- A token of an output template: literal text, or a named placeholder
field.  This is the token form of the Python format strings the script
uses, e.g. the default template is field filepath, literal underscore,
field width, literal dot, field ext. -/
inductive Tok where
  | lit (s : String)
  | field (name : String)
deriving DecidableEq, Repr

/-- The substitution environment that `JobTemplate.get_output_path` hands
to `str.format`: exactly the eight keyword arguments of the source call. -/
structure TemplateEnv where
  basename : String
  date : String
  exec_time : String
  ext : String
  filepath : String
  src_ext : String
  height : Int
  width : Int
deriving DecidableEq, Repr

/-- The placeholder names recognized by `get_output_path`, i.e. the
keywords passed to `str.format` in the source. -/
def validNames : List String :=
  ["basename", "date", "exec_time", "ext", "filepath", "height", "src_ext", "width"]

/-- Look up a placeholder name among the format keyword arguments; an
unknown name yields `none` (Python raises KeyError). Integers are
rendered the way `str.format` renders an int argument. -/
def lookupEnv (env : TemplateEnv) (n : String) : Option String :=
  if n = "basename" then some env.basename
  else if n = "date" then some env.date
  else if n = "exec_time" then some env.exec_time
  else if n = "ext" then some env.ext
  else if n = "filepath" then some env.filepath
  else if n = "height" then some (toString env.height)
  else if n = "src_ext" then some env.src_ext
  else if n = "width" then some (toString env.width)
  else none

/-- Model of `template.format(...)` with the eight keyword arguments:
substitute fields left to right, raising KeyError at the first field whose
name is not a recognized keyword. -/
def renderTemplate (tmpl : List Tok) (env : TemplateEnv) : Except PyError String :=
  match tmpl with
  | [] => Except.ok ""
  | Tok.lit s :: rest => (renderTemplate rest env).map (fun r => s ++ r)
  | Tok.field n :: rest =>
    match lookupEnv env n with
    | some v => (renderTemplate rest env).map (fun r => v ++ r)
    | none => Except.error (PyError.keyError n)

/-- The `dimensions` value handed to `JobTemplate.__init__` by the command
line fix-up in `Mesh2Img.command_line`: a dimension token without a comma
is passed along as the bare string, a token with commas is passed as the
list produced by `split`. -/
inductive Dim where
  | str (s : String)
  | pair (l : List String)
deriving DecidableEq, Repr

/-- The command line fix-up applied to each `--dimensions` token: split at
commas; a single element stays a bare string, otherwise the split list is
kept as the width and height pair. -/
def fixDimToken (d : String) : Dim :=
  match splitComma d with
  | [x] => Dim.str x
  | l => Dim.pair l

/-- An immutable job descriptor, the fields stored by
`JobTemplate.__init__`: output dimensions, template, image format and
JPEG quality. -/
structure JobSpec where
  width : Int
  height : Int
  output_template : List Tok
  image_format : String
  jpeg_quality : Int
deriving DecidableEq, Repr

/-- The source constant `DEFAULT_OUTPUT_TEMPLATE`: field filepath,
literal underscore, field width, literal dot, field ext, which places the
image next to the source mesh. -/
def DEFAULT_OUTPUT_TEMPLATE : List Tok :=
  [Tok.field "filepath", Tok.lit "_", Tok.field "width", Tok.lit ".", Tok.field "ext"]

/-- The width and height computed by `JobTemplate.__init__` from its
`dimensions` argument: Python tuple unpacking `width, height = dimensions`
succeeds exactly on a two-character string (yielding its two characters)
or a two-element list; on ValueError the except branch sets
`width = height = dimensions`; the `int(...)` conversions then run outside
the try block, and `int` of a list raises TypeError. -/
def dimPair (dimensions : Dim) : Except PyError (Int × Int) :=
  match dimensions with
  | Dim.str s =>
    match s.data with
    | [c0, c1] => do
      let w ← toIntE (pyIntChar c0)
      let h ← toIntE (pyIntChar c1)
      Except.ok (w, h)
    | _ => do
      let w ← toIntE (pyInt s)
      let h ← toIntE (pyInt s)
      Except.ok (w, h)
  | Dim.pair l =>
    match l with
    | [ws, hs] => do
      let w ← toIntE (pyInt ws)
      let h ← toIntE (pyInt hs)
      Except.ok (w, h)
    | _ => Except.error (PyError.typeError "int argument must be a string, not list")

/-- Model of `JobTemplate.__init__`: default the empty image format to png,
compute width and height from the dimensions argument, and store the
fields.  No validation of the image format or of dimension positivity
happens here. -/
def jobTemplateInit (dimensions : Dim) (output_template : List Tok)
    (image_format : String) (jpeg_quality : Int) : Except PyError JobSpec := do
  let wh ← dimPair dimensions
  Except.ok
    { width := wh.1
    , height := wh.2
    , output_template := output_template
    , image_format := if image_format = "" then "png" else image_format
    , jpeg_quality := jpeg_quality }

/-- The source constant `Mesh2Img.IMAGE_FORMATS`: file extensions with the
render engine file-format string for each. -/
def IMAGE_FORMATS : List (String × String) :=
  [("bmp", "BMP"), ("jpg", "JPEG"), ("png", "PNG"), ("tif", "TIFF")]

/-- The format lookup performed by `Mesh2Img.save_image`: fetching
`IMAGE_FORMATS[file_format]` raises KeyError, which the source rewraps as
a ValueError saying the format was not expected. -/
def imageFormatSetting (file_format : String) : Except PyError String :=
  match IMAGE_FORMATS.lookup file_format with
  | some v => Except.ok v
  | none => Except.error (PyError.valueError "was not an expected image format")

/-- Python truthiness of the optional `exec_time` argument: absent
(`None`) and the empty string are falsy. -/
def pyTruthy (e : Option String) : Prop :=
  match e with
  | none => False
  | some s => s ≠ ""

instance (e : Option String) : Decidable (pyTruthy e) := by
  unfold pyTruthy
  match e with
  | none => exact inferInstanceAs (Decidable False)
  | some s => exact inferInstanceAs (Decidable (s ≠ ""))

/-- The value `get_output_path` uses for the exec_time placeholder: the
argument when it is truthy, otherwise the freshly computed date string. -/
def pyExecTime (exec_time : Option String) (date : String) : String :=
  match exec_time with
  | none => date
  | some s => if s = "" then date else s

/-- The substitution environment built inside
`JobTemplate.get_output_path`: the current instant (already rendered in
the strftime format) becomes date, a falsy exec_time argument falls back
to that same instant, the source path is split into stem and extension,
and the lowercased image format becomes ext. -/
def mkEnv (jt : JobSpec) (input_filepath : String) (exec_time : Option String)
    (now : String) : TemplateEnv :=
  { basename := basenameOf (splitext input_filepath).1
  , date := now
  , exec_time := pyExecTime exec_time now
  , ext := lowerStr jt.image_format
  , filepath := (splitext input_filepath).1
  , src_ext := (splitext input_filepath).2
  , height := jt.height
  , width := jt.width }

/-- Model of `JobTemplate.get_output_path`: render the template over the
substitution environment.  The `now` argument stands for the
`datetime.now().strftime(...)` string read at the instant of the call. -/
def get_output_path (jt : JobSpec) (input_filepath : String)
    (exec_time : Option String) (now : String) : Except PyError String :=
  renderTemplate jt.output_template (mkEnv jt input_filepath exec_time now)

/-- An entry in the modelled filesystem: a plain file or a directory with
its children, in directory-listing order. -/
inductive FSEntry where
  | file (name : String)
  | dir (name : String) (children : List FSEntry)

/-- An input path handed to `Mesh2Img.start`, already classified the way
`os.path.isdir` classifies it: either a plain file path, or a directory
path together with the tree that lives under it. -/
inductive PathEntry where
  | file (path : String)
  | dir (path : String) (children : List FSEntry)

/-- The names of the plain files among a list of entries, in listing
order: the `filenames` component that `os.walk` yields for one folder. -/
def fileNamesOf (entries : List FSEntry) : List String :=
  entries.filterMap (fun e =>
    match e with
    | FSEntry.file n => some n
    | FSEntry.dir _ _ => none)

mutual

/-- Model of top-down `os.walk` flattened to (folder, filename) pairs: the
files of the current folder first, then each subdirectory in order. -/
def walkDir (path : String) (entries : List FSEntry) : List (String × String) :=
  (fileNamesOf entries).map (fun n => (path, n)) ++ walkSubdirs path entries

/-- The recursive part of `os.walk`: visit each directory child in order. -/
def walkSubdirs (path : String) (entries : List FSEntry) : List (String × String) :=
  match entries with
  | [] => []
  | FSEntry.file _ :: rest => walkSubdirs path rest
  | FSEntry.dir n children :: rest =>
    walkDir (joinPath path n) children ++ walkSubdirs path rest

end

/-- The source constant `Mesh2Img.MESH_TYPES` keys: the extensions that
have an importer. -/
def MESH_EXTENSIONS : List String := [".stl", ".ply"]

/-- The extension test in `Mesh2Img._process_dir`: lowercase the extension
of the bare filename and look it up among the mesh types. -/
def isMeshName (filename : String) : Bool :=
  MESH_EXTENSIONS.contains (lowerStr (splitext filename).2)

/-- Model of `Mesh2Img._process_dir` as a planner: walk the tree and keep
the full path of every file whose extension is a recognized mesh type. -/
def processDirSources (path : String) (entries : List FSEntry) : List String :=
  (walkDir path entries).filterMap (fun pr =>
    if isMeshName pr.2 then some (joinPath pr.1 pr.2) else none)

/-- The source files selected for one input path by `Mesh2Img.start`: a
directory is expanded through `_process_dir`, while a plain file path goes
to `_process_file` unconditionally, with no extension filter. -/
def sourcesOf : PathEntry → List String
  | PathEntry.file p => [p]
  | PathEntry.dir p entries => processDirSources p entries

/-- The importer lookup in `Mesh2Img.open_mesh`:
`MESH_TYPES[ext]` with the lowercased extension of the file, raising
KeyError when no importer exists for it. -/
def openMeshExt (filepath : String) : Except PyError String :=
  let ext := lowerStr (splitext filepath).2
  if MESH_EXTENSIONS.contains ext then Except.ok ext
  else Except.error (PyError.keyError ext)

/-- One observable request made to the host 3D engine during a batch run:
the side effects of `Mesh2Img.start` and its helpers, in order. -/
inductive Effect where
  | deleteObject (name : String)
  | setCamera (params : List ℚ)
  | importMesh (path : String)
  | scaleApplied (path : String)
  | render (output_path : String) (width height : Int) (file_format : String)
  | removeMesh (path : String)
deriving DecidableEq, Repr

/-- The state assembled by `Mesh2Img.__init__`: the input paths, the job
templates added from the dimensions list, the scaling limit, the camera
placement, and the batch start timestamp `execute_time`. -/
structure Batch where
  filepaths : List PathEntry
  job_templates : List JobSpec
  max_dim : ℚ
  camera_coords : List ℚ
  camera_rotation : List ℚ
  execute_time : String

/-- Model of `Mesh2Img.__init__` called with the command line dictionary:
each fixed-up dimension token becomes a job template sharing the one
output template, image format and JPEG quality; `execute_time` is the
batch start instant. -/
def mesh2ImgInit (paths : List PathEntry) (dimensions : List Dim)
    (image_format : String) (output_template : List Tok) (max_dim : ℚ)
    (camera_coords camera_rotation : List ℚ) (jpeg_quality : Int)
    (execute_time : String) : Except PyError Batch := do
  let jts ← dimensions.mapM
    (fun d => jobTemplateInit d output_template image_format jpeg_quality)
  Except.ok
    { filepaths := paths
    , job_templates := jts
    , max_dim := max_dim
    , camera_coords := camera_coords
    , camera_rotation := camera_rotation
    , execute_time := execute_time }

/-- The per-template loop body of `Mesh2Img._process_file`: resolve the
output path with the batch `execute_time`, then `save_image` validates the
format and renders at the template width and height. -/
def jobEvents (b : Batch) (now src : String) : Except PyError (List Effect) :=
  b.job_templates.mapM (fun jt => do
    let out ← get_output_path jt src (some b.execute_time) now
    let fmt ← imageFormatSetting jt.image_format
    Except.ok (Effect.render out jt.width jt.height fmt))

/-- Model of `Mesh2Img._process_file` with the default
`leave_mesh_open=False`: import (via the extension importer table), scale,
render one image per job template, then remove the mesh. -/
def processFileEvents (b : Batch) (now src : String) : Except PyError (List Effect) := do
  let _ ← openMeshExt src
  let evs ← jobEvents b now src
  Except.ok ([Effect.importMesh src, Effect.scaleApplied src] ++ evs ++ [Effect.removeMesh src])

/-- The dispatch inside the `Mesh2Img.start` loop: a directory is expanded
by the planner and each found mesh file processed, a file path is
processed directly. -/
def processPathEvents (b : Batch) (now : String) : PathEntry → Except PyError (List Effect)
  | PathEntry.file p => processFileEvents b now p
  | PathEntry.dir p entries => do
    let runs ← (processDirSources p entries).mapM (processFileEvents b now)
    Except.ok runs.flatten

/-- Model of `Mesh2Img.start` as an effect trace: first the two emptiness
checks raise ValueError (so an error leaves the scene untouched), then the
scene preparation (delete the default Cube, set the camera from the
concatenated coordinates and rotation) and the per-path processing. -/
def startRun (b : Batch) (now : String) : Except PyError (List Effect) :=
  if b.filepaths.isEmpty then
    Except.error (PyError.valueError "No filepaths were given")
  else if b.job_templates.isEmpty then
    Except.error (PyError.valueError "No jobs given")
  else do
    let runs ← b.filepaths.mapM (processPathEvents b now)
    Except.ok
      ([Effect.deleteObject "Cube",
        Effect.setCamera (b.camera_coords ++ b.camera_rotation)] ++ runs.flatten)

/-- The cross product of source files and job templates, as produced by
the nested loops of `start` over `_process_file`. -/
def crossItems (sources : List String) (jts : List JobSpec) : List (String × JobSpec) :=
  sources.flatMap (fun f => jts.map (fun jt => (f, jt)))

/-- The worklist of a batch: every recognized source file paired with
every job template. -/
def worklist (b : Batch) : List (String × JobSpec) :=
  crossItems (b.filepaths.flatMap sourcesOf) b.job_templates

/-- A scene object as the scaling code sees it: its unscaled bounding box
and its current scale.  The host engine reports `dimensions` as the
bounding box multiplied componentwise by the scale. -/
structure Mesh where
  baseDims : ℚ × ℚ × ℚ
  scale : ℚ × ℚ × ℚ
deriving DecidableEq, Repr

/-- The `mesh.dimensions` property read by `scale_mesh`: bounding box
times current scale, per axis. -/
def dimsOf (m : Mesh) : ℚ × ℚ × ℚ :=
  (m.baseDims.1 * m.scale.1, m.baseDims.2.1 * m.scale.2.1, m.baseDims.2.2 * m.scale.2.2)

/-- Python `max` over the three dimension components. -/
def maxDim3 (d : ℚ × ℚ × ℚ) : ℚ :=
  max d.1 (max d.2.1 d.2.2)

/-- Model of `scale_mesh`: read the largest current dimension; when it is
zero return without touching the mesh, otherwise set a uniform scale of
`1 / (max_length / max_dim)` on all three axes. -/
def scale_mesh (mesh : Mesh) (max_dim : ℚ) : Mesh :=
  let max_length := maxDim3 (dimsOf mesh)
  if max_length = 0 then mesh
  else
    let scale_factor := 1 / (max_length / max_dim)
    { mesh with scale := (scale_factor, scale_factor, scale_factor) }

/-- The directory-expansion example of the specification: a folder holding
a.stl, b.txt, c.PLY and a subfolder with d.ply. -/
def exampleTree : List FSEntry :=
  [FSEntry.file "a.stl", FSEntry.file "b.txt", FSEntry.file "c.PLY",
   FSEntry.dir "sub" [FSEntry.file "d.ply"]]

/-- The 400 by 400 job template of the specification scenario. -/
def jt400 : JobSpec :=
  { width := 400, height := 400, output_template := DEFAULT_OUTPUT_TEMPLATE
  , image_format := "png", jpeg_quality := 80 }

/-- The 800 by 600 job template of the specification scenario. -/
def jt800 : JobSpec :=
  { width := 800, height := 600, output_template := DEFAULT_OUTPUT_TEMPLATE
  , image_format := "png", jpeg_quality := 80 }

/-- The batch built from paths /m/one.stl and dimensions 400 and 800,600. -/
def scenarioBatch : Batch :=
  { filepaths := [PathEntry.file "/m/one.stl"]
  , job_templates := [jt400, jt800]
  , max_dim := 9
  , camera_coords := [0, 0, 10]
  , camera_rotation := [0, 0, 0]
  , execute_time := "2016-06-01_120000" }

/-- Claim C1 (corrected part): a single-integer dimension token whose
string is not exactly two characters long survives the CLI fix-up and
tuple unpacking intact, so the constructed job has width and height both
equal to that integer.  The two-character case is excluded because Python
unpacks such a string character by character. -/
theorem single_dim_token_square (s : String) (tmpl : List Tok) (fmt : String)
    (q : Int) (v : Int) (hv : pyInt s = some v) (hlen : s.length ≠ 2) :
    jobTemplateInit (Dim.str s) tmpl fmt q =
      Except.ok
        { width := v, height := v, output_template := tmpl
        , image_format := if fmt = "" then "png" else fmt, jpeg_quality := q } := by
  obtain ⟨cs⟩ := s
  rcases cs with _ | ⟨c0, _ | ⟨c1, _ | ⟨c2, rest⟩⟩⟩
  · simp [pyInt] at hv
  · simp only [jobTemplateInit, dimPair, toIntE, hv]
    rfl
  · exact absurd rfl hlen
  · simp only [jobTemplateInit, dimPair, toIntE, hv]
    rfl

/-- Claim C1 witness: the token 400 yields a 400 by 400 square job. -/
theorem single_dim_token_square_applied :
    jobTemplateInit (Dim.str "400") DEFAULT_OUTPUT_TEMPLATE "png" 80 =
      Except.ok
        { width := 400, height := 400, output_template := DEFAULT_OUTPUT_TEMPLATE
        , image_format := if "png" = "" then "png" else "png", jpeg_quality := 80 } :=
  single_dim_token_square "400" DEFAULT_OUTPUT_TEMPLATE "png" 80 400 rfl (by decide)

/-- Claim C1 counterexample: the valid single positive integer token 40
passes through the CLI fix-up as the bare string 40, but construction
unpacks it into width 4 and height 0 rather than a 40 by 40 square. -/
theorem single_dim_token_square_cex :
    fixDimToken "40" = Dim.str "40" ∧
    jobTemplateInit (Dim.str "40") DEFAULT_OUTPUT_TEMPLATE "png" 80 =
      Except.ok
        { width := 4, height := 0, output_template := DEFAULT_OUTPUT_TEMPLATE
        , image_format := "png", jpeg_quality := 80 } ∧
    (4 : Int) ≠ 40 := by
  refine ⟨?_, rfl, by decide⟩
  simp only [fixDimToken, splitComma]
  decide

/-- Claim C9: a two-character dimension string is unpacked character by
character, so width becomes the value of the first digit and height the
value of the second digit. -/
theorem two_char_dim_unpacked (c0 c1 : Char) (tmpl : List Tok) (fmt : String)
    (q : Int) (h0 : c0.isDigit) (h1 : c1.isDigit) :
    jobTemplateInit (Dim.str (String.mk [c0, c1])) tmpl fmt q =
      Except.ok
        { width := (c0.toNat : Int) - 48, height := (c1.toNat : Int) - 48
        , output_template := tmpl
        , image_format := if fmt = "" then "png" else fmt, jpeg_quality := q } := by
  simp only [jobTemplateInit, dimPair, pyIntChar, toIntE, h0, h1, if_pos]
  rfl

/-- Claim C9 witness: the token 40 gives width 4 and height 0. -/
theorem two_char_dim_unpacked_applied :
    jobTemplateInit (Dim.str (String.mk ['4', '0'])) DEFAULT_OUTPUT_TEMPLATE "png" 80 =
      Except.ok
        { width := 4, height := 0, output_template := DEFAULT_OUTPUT_TEMPLATE
        , image_format := if "png" = "" then "png" else "png", jpeg_quality := 80 } := by
  have h := two_char_dim_unpacked '4' '0' DEFAULT_OUTPUT_TEMPLATE "png" 80
    (by decide) (by decide)
  simpa using h

/-- Claim C2: path resolution is the pure function `renderTemplate` of the
substitution environment, which is built only from the template, the job
fields, the source path, the exec_time argument and the current instant;
when the exec_time argument is truthy (the batch start string is always a
nonempty timestamp), two resolutions at different instants use
environments that agree on every field except date, and exec_time is the
given batch value passed through unchanged. -/
theorem get_output_path_pure_date_only (jt : JobSpec) (src : String)
    (e : Option String) (now₁ now₂ : String) (he : pyTruthy e) :
    mkEnv jt src e now₁ = { mkEnv jt src e now₂ with date := now₁ } ∧
    (mkEnv jt src e now₁).exec_time = e.getD "" ∧
    (mkEnv jt src e now₁).date = now₁ ∧
    get_output_path jt src e now₁ =
      renderTemplate jt.output_template (mkEnv jt src e now₁) := by
  rcases e with _ | s
  · exact absurd he (by simp [pyTruthy])
  · have hs : s ≠ "" := he
    refine ⟨?_, ?_, rfl, rfl⟩
    · simp [mkEnv, pyExecTime, hs]
    · simp [mkEnv, pyExecTime, hs]

/-- Claim C2 witness: a concrete resolution at two different instants with
the batch exec_time fixed. -/
theorem get_output_path_pure_date_only_applied :
    pyTruthy (some "2016-06-01_120000") ∧
    mkEnv
        { width := 400, height := 400, output_template := DEFAULT_OUTPUT_TEMPLATE
        , image_format := "png", jpeg_quality := 80 }
        "/m/one.stl" (some "2016-06-01_120000") "2016-06-01_120001" =
      { mkEnv
          { width := 400, height := 400, output_template := DEFAULT_OUTPUT_TEMPLATE
          , image_format := "png", jpeg_quality := 80 }
          "/m/one.stl" (some "2016-06-01_120000") "2016-06-01_120002" with
        date := "2016-06-01_120001" } := by
  have h := get_output_path_pure_date_only
    { width := 400, height := 400, output_template := DEFAULT_OUTPUT_TEMPLATE
    , image_format := "png", jpeg_quality := 80 }
    "/m/one.stl" (some "2016-06-01_120000") "2016-06-01_120001" "2016-06-01_120002"
    (by decide)
  exact ⟨by decide, h.1⟩

/-- Any placeholder name outside the eight format keywords fails the
environment lookup. -/
theorem lookupEnv_eq_none (env : TemplateEnv) (n : String)
    (h : n ∉ validNames) : lookupEnv env n = none := by
  simp only [validNames, List.mem_cons, List.not_mem_nil, or_false, not_or] at h
  obtain ⟨h1, h2, h3, h4, h5, h6, h7, h8⟩ := h
  simp [lookupEnv, h1, h2, h3, h4, h5, h6, h7, h8]

/-- A recognized lookup means the name is among the format keywords. -/
theorem lookupEnv_mem_of_some (env : TemplateEnv) (n : String) (v : String)
    (h : lookupEnv env n = some v) : n ∈ validNames := by
  by_contra hn
  rw [lookupEnv_eq_none env n hn] at h
  exact Option.noConfusion h

/-- Rendering a template that references an unrecognized placeholder name
always fails with a KeyError naming an unrecognized placeholder. -/
theorem renderTemplate_unknown_field (tmpl : List Tok) (env : TemplateEnv)
    (h : ∃ n, Tok.field n ∈ tmpl ∧ n ∉ validNames) :
    ∃ bad, bad ∉ validNames ∧
      renderTemplate tmpl env = Except.error (PyError.keyError bad) := by
  induction tmpl with
  | nil =>
    obtain ⟨n, hn, _⟩ := h
    exact absurd hn (List.not_mem_nil _)
  | cons t rest ih =>
    obtain ⟨n, hn, hbad⟩ := h
    match t with
    | Tok.lit s =>
      have hn' : Tok.field n ∈ rest := by
        rcases List.mem_cons.mp hn with h' | h'
        · exact absurd h' (by simp)
        · exact h'
      obtain ⟨bad, hb, heq⟩ := ih ⟨n, hn', hbad⟩
      exact ⟨bad, hb, by simp [renderTemplate, heq, Except.map]⟩
    | Tok.field m =>
      cases hm : lookupEnv env m with
      | none =>
        refine ⟨m, ?_, by simp [renderTemplate, hm]⟩
        intro hmem
        have : lookupEnv env m ≠ none := by
          cases env
          fin_cases hmem <;> simp [lookupEnv]
        exact this hm
      | some v =>
        have hmmem := lookupEnv_mem_of_some env m v hm
        have hn' : Tok.field n ∈ rest := by
          rcases List.mem_cons.mp hn with h' | h'
          · have : n = m := by injection h'
            exact absurd (this ▸ hmmem) hbad
          · exact h'
        obtain ⟨bad, hb, heq⟩ := ih ⟨n, hn', hbad⟩
        exact ⟨bad, hb, by simp [renderTemplate, hm, heq, Except.map]⟩

/-- Claim C3: if the output template references any placeholder name
outside the recognized set, `get_output_path` fails with a KeyError (the
TemplateError of the specification); the unknown placeholder is never
dropped and never passed through, since no output string is produced at
all. -/
theorem unknown_placeholder_always_errors (jt : JobSpec) (src : String)
    (e : Option String) (now : String)
    (h : ∃ n, Tok.field n ∈ jt.output_template ∧ n ∉ validNames) :
    ∃ bad, bad ∉ validNames ∧
      get_output_path jt src e now = Except.error (PyError.keyError bad) :=
  renderTemplate_unknown_field jt.output_template (mkEnv jt src e now) h

/-- Claim C3 witness: a template using an unknown placeholder fails on a
concrete job. -/
theorem unknown_placeholder_always_errors_applied :
    ∃ bad, bad ∉ validNames ∧
      get_output_path
        { width := 400, height := 400, output_template := [Tok.field "foo"]
        , image_format := "png", jpeg_quality := 80 }
        "/m/one.stl" none "2016-06-01_120000" =
        Except.error (PyError.keyError bad) :=
  unknown_placeholder_always_errors
    { width := 400, height := 400, output_template := [Tok.field "foo"]
    , image_format := "png", jpeg_quality := 80 }
    "/m/one.stl" none "2016-06-01_120000" ⟨"foo", by decide, by decide⟩

/-- Claim C10: when the exec_time argument of `get_output_path` is absent
or the empty string, the exec_time placeholder is substituted with the
same freshly computed current instant as the date placeholder, collapsing
the batch-start versus instant-of-render distinction. -/
theorem falsy_exec_time_collapses_to_date (jt : JobSpec) (src : String) (now : String) :
    (mkEnv jt src none now).exec_time = (mkEnv jt src none now).date ∧
    (mkEnv jt src none now).date = now ∧
    (mkEnv jt src (some "") now).exec_time = (mkEnv jt src (some "") now).date ∧
    (mkEnv jt src (some "") now).date = now ∧
    get_output_path jt src none now =
      renderTemplate jt.output_template (mkEnv jt src none now) := by
  refine ⟨?_, rfl, ?_, rfl, rfl⟩
  · simp [mkEnv, pyExecTime]
  · simp [mkEnv, pyExecTime]

/-- Keeping only matching pairs and joining them is the same as filtering
then mapping. -/
theorem filterMap_mesh_eq_filter_map (l : List (String × String)) :
    l.filterMap (fun pr => if isMeshName pr.2 then some (joinPath pr.1 pr.2) else none) =
      (l.filter (fun pr => isMeshName pr.2)).map (fun pr => joinPath pr.1 pr.2) := by
  induction l with
  | nil => rfl
  | cons hd tl ih =>
    by_cases h : isMeshName hd.2 <;>
      simp [List.filterMap_cons, List.filter_cons, h, ih]

/-- Claim C4: expanding a directory keeps exactly the walked files whose
extension matches a mesh type case-insensitively, while a plain file input
is kept unconditionally with no extension filter; on the concrete
specification example only a.stl, c.PLY and sub/d.ply survive. -/
theorem planner_dir_filter_file_unconditional :
    (∀ (path : String) (entries : List FSEntry),
      processDirSources path entries =
        ((walkDir path entries).filter (fun pr => isMeshName pr.2)).map
          (fun pr => joinPath pr.1 pr.2)) ∧
    (∀ p : String, sourcesOf (PathEntry.file p) = [p]) ∧
    sourcesOf (PathEntry.dir "/m" exampleTree) =
      ["/m/a.stl", "/m/c.PLY", "/m/sub/d.ply"] := by
  refine ⟨fun path entries => filterMap_mesh_eq_filter_map _, fun p => rfl, ?_⟩
  simp only [sourcesOf, processDirSources, walkDir, walkSubdirs, exampleTree]
  decide

/-- Claim C5: starting a batch with an empty path list or an empty job
template list raises the corresponding ValueError; the error branch is
taken before any effect is emitted, so the returned trace contains no
scene mutation at all. -/
theorem start_empty_inputs_error (b : Batch) (now : String) :
    (b.filepaths = [] →
      startRun b now = Except.error (PyError.valueError "No filepaths were given")) ∧
    (b.filepaths ≠ [] → b.job_templates = [] →
      startRun b now = Except.error (PyError.valueError "No jobs given")) := by
  constructor
  · intro h
    simp [startRun, h]
  · intro h1 h2
    simp [startRun, h1, h2]

/-- Claim C5 witness: a batch with no paths errors, and a batch with a
path but no job templates errors, both without effects. -/
theorem start_empty_inputs_error_applied :
    startRun
        { filepaths := [], job_templates := [], max_dim := 9
        , camera_coords := [], camera_rotation := [], execute_time := "t" } "now" =
      Except.error (PyError.valueError "No filepaths were given") ∧
    startRun
        { filepaths := [PathEntry.file "/m/one.stl"], job_templates := []
        , max_dim := 9, camera_coords := [], camera_rotation := []
        , execute_time := "t" } "now" =
      Except.error (PyError.valueError "No jobs given") := by
  constructor
  · exact (start_empty_inputs_error
      { filepaths := [], job_templates := [], max_dim := 9
      , camera_coords := [], camera_rotation := [], execute_time := "t" } "now").1 rfl
  · exact (start_empty_inputs_error
      { filepaths := [PathEntry.file "/m/one.stl"], job_templates := []
      , max_dim := 9, camera_coords := [], camera_rotation := []
      , execute_time := "t" } "now").2 (by simp) rfl

/-- Claim C6 counterexample: construction does not fail on an unknown
image format, and does not reject a non-positive dimension: both succeed,
contradicting the claimed construction-time ValidationError. -/
theorem jobspec_construction_no_validation_cex :
    jobTemplateInit (Dim.str "400") DEFAULT_OUTPUT_TEMPLATE "gif" 80 =
      Except.ok
        { width := 400, height := 400, output_template := DEFAULT_OUTPUT_TEMPLATE
        , image_format := "gif", jpeg_quality := 80 } ∧
    jobTemplateInit (Dim.str "0") DEFAULT_OUTPUT_TEMPLATE "png" 80 =
      Except.ok
        { width := 0, height := 0, output_template := DEFAULT_OUTPUT_TEMPLATE
        , image_format := "png", jpeg_quality := 80 } :=
  ⟨rfl, rfl⟩

/-- Claim C6 (amended): construction stores any nonempty image format
verbatim and accepts any dimensions; the empty format defaults to png; an
image format outside the enumerated set is only rejected later, when
`save_image` looks it up and raises ValueError. -/
theorem image_format_validation_deferred (d : Dim) (tmpl : List Tok)
    (fmt : String) (q : Int) (spec : JobSpec) :
    (fmt ≠ "" → jobTemplateInit d tmpl fmt q = Except.ok spec →
      spec.image_format = fmt) ∧
    (jobTemplateInit d tmpl "" q = Except.ok spec → spec.image_format = "png") ∧
    (fmt ∉ ["bmp", "jpg", "png", "tif"] →
      imageFormatSetting fmt =
        Except.error (PyError.valueError "was not an expected image format")) := by
  refine ⟨?_, ?_, ?_⟩
  · intro hfmt hok
    cases h : dimPair d with
    | error e => simp [jobTemplateInit, h, Except.bind, bind] at hok
    | ok wh =>
      simp only [jobTemplateInit, h, bind, Except.bind] at hok
      have := congrArg
        (fun r => match r with
          | Except.ok s => JobSpec.image_format s
          | Except.error _ => fmt) hok
      simpa [hfmt] using this.symm
  · intro hok
    cases h : dimPair d with
    | error e => simp [jobTemplateInit, h, Except.bind, bind] at hok
    | ok wh =>
      simp only [jobTemplateInit, h, bind, Except.bind] at hok
      have := congrArg
        (fun r => match r with
          | Except.ok s => JobSpec.image_format s
          | Except.error _ => "png") hok
      simpa using this.symm
  · intro h
    simp only [List.mem_cons, List.not_mem_nil, or_false, not_or] at h
    obtain ⟨h1, h2, h3, h4⟩ := h
    have e1 : (fmt == "bmp") = false := by simp [h1]
    have e2 : (fmt == "jpg") = false := by simp [h2]
    have e3 : (fmt == "png") = false := by simp [h3]
    have e4 : (fmt == "tif") = false := by simp [h4]
    simp [imageFormatSetting, IMAGE_FORMATS, List.lookup, e1, e2, e3, e4]

/-- Claim C6 witness: a gif job is constructed without error carrying the
gif format, the empty format defaults to png, and save_image rejects gif. -/
theorem image_format_validation_deferred_applied :
    ({ width := 400, height := 400, output_template := DEFAULT_OUTPUT_TEMPLATE
     , image_format := "gif", jpeg_quality := 80 } : JobSpec).image_format = "gif" ∧
    ({ width := 400, height := 400, output_template := DEFAULT_OUTPUT_TEMPLATE
     , image_format := "png", jpeg_quality := 80 } : JobSpec).image_format = "png" ∧
    imageFormatSetting "gif" =
      Except.error (PyError.valueError "was not an expected image format") := by
  refine ⟨?_, ?_, ?_⟩
  · exact (image_format_validation_deferred (Dim.str "400") DEFAULT_OUTPUT_TEMPLATE
      "gif" 80 _).1 (by decide) rfl
  · exact (image_format_validation_deferred (Dim.str "400") DEFAULT_OUTPUT_TEMPLATE
      "gif" 80 _).2.1 rfl
  · exact (image_format_validation_deferred (Dim.str "400") DEFAULT_OUTPUT_TEMPLATE
      "gif" 80
      { width := 400, height := 400, output_template := DEFAULT_OUTPUT_TEMPLATE
      , image_format := "gif", jpeg_quality := 80 }).2.2 (by decide)

/-- Multiplying both arguments of a max by a nonnegative factor commutes
with the max. -/
theorem max_mul_nonneg_comm (a b c : ℚ) (hc : 0 ≤ c) :
    max (a * c) (b * c) = max a b * c := by
  rcases le_total a b with h | h
  · rw [max_eq_right h, max_eq_right (mul_le_mul_of_nonneg_right h hc)]
  · rw [max_eq_left h, max_eq_left (mul_le_mul_of_nonneg_right h hc)]

/-- Claim C7: on a mesh at identity scale with a nonnegative bounding box,
`scale_mesh` leaves the mesh untouched when the largest dimension is zero,
and otherwise sets the uniform scale factor max_dim over the largest
dimension, after which the largest dimension equals max_dim. -/
theorem scale_mesh_skip_zero_and_normalize (mesh : Mesh) (max_dim : ℚ)
    (hmd : 0 < max_dim) (hb1 : 0 ≤ mesh.baseDims.1) (hb2 : 0 ≤ mesh.baseDims.2.1)
    (hb3 : 0 ≤ mesh.baseDims.2.2) (hid : mesh.scale = (1, 1, 1)) :
    (maxDim3 (dimsOf mesh) = 0 → scale_mesh mesh max_dim = mesh) ∧
    (maxDim3 (dimsOf mesh) ≠ 0 →
      (scale_mesh mesh max_dim).scale =
        (max_dim / maxDim3 (dimsOf mesh), max_dim / maxDim3 (dimsOf mesh),
         max_dim / maxDim3 (dimsOf mesh)) ∧
      maxDim3 (dimsOf (scale_mesh mesh max_dim)) = max_dim) := by
  constructor
  · intro h
    simp [scale_mesh, h]
  · intro h
    have hL : maxDim3 (dimsOf mesh) = maxDim3 mesh.baseDims := by
      simp [dimsOf, maxDim3, hid]
    have hLpos : 0 < maxDim3 (dimsOf mesh) := by
      rcases lt_or_eq_of_le (le_max_left mesh.baseDims.1
        (max mesh.baseDims.2.1 mesh.baseDims.2.2)) with _ | _
      all_goals
        have h1 : 0 ≤ maxDim3 mesh.baseDims :=
          le_trans hb1 (le_max_left _ _)
        rw [hL]
        rcases lt_or_eq_of_le h1 with hlt | heq
        · exact hlt
        · exact absurd (hL.trans heq.symm) h
    have hfac : 1 / (maxDim3 (dimsOf mesh) / max_dim) =
        max_dim / maxDim3 (dimsOf mesh) := one_div_div _ _
    have hscale : (scale_mesh mesh max_dim).scale =
        (max_dim / maxDim3 (dimsOf mesh), max_dim / maxDim3 (dimsOf mesh),
         max_dim / maxDim3 (dimsOf mesh)) := by
      simp only [scale_mesh, if_neg h, hfac]
    refine ⟨hscale, ?_⟩
    have hbase : (scale_mesh mesh max_dim).baseDims = mesh.baseDims := by
      simp only [scale_mesh]
      split <;> rfl
    have hf : 0 ≤ max_dim / maxDim3 (dimsOf mesh) :=
      div_nonneg (le_of_lt hmd) (le_of_lt hLpos)
    rw [show dimsOf (scale_mesh mesh max_dim) =
        (mesh.baseDims.1 * (max_dim / maxDim3 (dimsOf mesh)),
         mesh.baseDims.2.1 * (max_dim / maxDim3 (dimsOf mesh)),
         mesh.baseDims.2.2 * (max_dim / maxDim3 (dimsOf mesh)))
      from by rw [dimsOf, hbase, hscale]]
    show max _ (max _ _) = max_dim
    rw [max_mul_nonneg_comm _ _ _ hf, max_mul_nonneg_comm _ _ _ hf]
    have : max mesh.baseDims.1 (max mesh.baseDims.2.1 mesh.baseDims.2.2) =
        maxDim3 (dimsOf mesh) := by
      rw [hL]; rfl
    rw [this]
    field_simp

/-- Claim C7 witness: a degenerate mesh is left untouched, and a 2 by 1 by
1 mesh scaled with max_dim 9 gets scale 9 over 2 and largest dimension 9. -/
theorem scale_mesh_skip_zero_and_normalize_applied :
    scale_mesh { baseDims := (0, 0, 0), scale := (1, 1, 1) } 9 =
      { baseDims := (0, 0, 0), scale := (1, 1, 1) } ∧
    (scale_mesh { baseDims := (2, 1, 1), scale := (1, 1, 1) } 9).scale =
      (9 / 2, 9 / 2, 9 / 2) ∧
    maxDim3 (dimsOf (scale_mesh { baseDims := (2, 1, 1), scale := (1, 1, 1) } 9)) = 9 := by
  refine ⟨?_, ?_⟩
  · exact (scale_mesh_skip_zero_and_normalize
      { baseDims := (0, 0, 0), scale := (1, 1, 1) } 9 (by norm_num) (le_refl 0)
      (le_refl 0) (le_refl 0) rfl).1 (by norm_num [maxDim3, dimsOf])
  · have h := (scale_mesh_skip_zero_and_normalize
      { baseDims := (2, 1, 1), scale := (1, 1, 1) } 9 (by norm_num) (by norm_num)
      (by norm_num) (by norm_num) rfl).2 (by norm_num [maxDim3, dimsOf])
    have hm : maxDim3 (dimsOf ({ baseDims := (2, 1, 1), scale := (1, 1, 1) } : Mesh)) = 2 := by
      norm_num [maxDim3, dimsOf]
    rw [hm] at h
    exact ⟨h.1, h.2⟩

/-- Claim C8: the worklist is the full cross product of recognized source
files and job templates, and in the concrete scenario with one mesh file
and the dimension tokens 400 and 800,600 exactly two work items are
produced, whose default-template output paths differ only in the
substituted width value. -/
theorem worklist_full_cross_product :
    (∀ (sources : List String) (jts : List JobSpec) (f : String) (jt : JobSpec),
      ((f, jt) ∈ crossItems sources jts ↔ f ∈ sources ∧ jt ∈ jts)) ∧
    (∀ (sources : List String) (jts : List JobSpec),
      (crossItems sources jts).length = sources.length * jts.length) ∧
    mesh2ImgInit [PathEntry.file "/m/one.stl"] (["400", "800,600"].map fixDimToken)
        "png" DEFAULT_OUTPUT_TEMPLATE 9 [0, 0, 10] [0, 0, 0] 80 "2016-06-01_120000" =
      Except.ok scenarioBatch ∧
    worklist scenarioBatch = [("/m/one.stl", jt400), ("/m/one.stl", jt800)] ∧
    get_output_path jt400 "/m/one.stl" (some scenarioBatch.execute_time)
        "2016-06-01_120001" = Except.ok "/m/one_400.png" ∧
    get_output_path jt800 "/m/one.stl" (some scenarioBatch.execute_time)
        "2016-06-01_120001" = Except.ok "/m/one_800.png" := by
  refine ⟨?_, ?_, rfl, rfl, rfl, rfl⟩
  · intro sources jts f jt
    constructor
    · intro h
      simp only [crossItems, List.mem_flatMap, List.mem_map] at h
      obtain ⟨a, ha, x, hx, hax⟩ := h
      obtain ⟨h1, h2⟩ := Prod.mk.injEq _ _ _ _ ▸ hax
      exact ⟨h1 ▸ ha, h2 ▸ hx⟩
    · intro ⟨hf, hj⟩
      simp only [crossItems, List.mem_flatMap, List.mem_map]
      exact ⟨f, hf, jt, hj, rfl⟩
  · intro sources jts
    induction sources with
    | nil => simp [crossItems]
    | cons a as ih =>
      simp only [crossItems, List.flatMap_cons, List.length_append,
        List.length_map, List.length_cons] at *
      rw [ih]
      ring
